import Mathlib

/-!
Shallow embedding of the flux_led light platform (`light.py`): the effect
preset table, the mired/kelvin boundary conversions, the constructed
entity attributes, the state-derivation accessors, and the
`_async_turn_on` intent dispatch.  External helper functions imported by
the source from the `flux_led` and `homeassistant` libraries are not part
of this repository's source tree; they are modelled from the spec and
marked as such in their doc comments.
-/

namespace FluxLed

/-! ## Constants and the effect preset table (`light.py` lines 106-159) -/

/-- Effect name constant `EFFECT_COLORLOOP` (imported Home Assistant constant). -/
def EFFECT_COLORLOOP : String := "colorloop"

/-- Effect name constant `EFFECT_RANDOM` (imported Home Assistant constant). -/
def EFFECT_RANDOM : String := "random"

/-- Effect name constant `EFFECT_CUSTOM` (`light.py` line 132). -/
def EFFECT_CUSTOM : String := "custom"

/-- The `EFFECT_MAP` dict of `light.py` lines 134-155, as an association
list in source order: effect name to one-byte preset code. -/
def EFFECT_MAP : List (String × Nat) :=
  [ (EFFECT_COLORLOOP, 0x25)
  , ("red_fade", 0x26)
  , ("green_fade", 0x27)
  , ("blue_fade", 0x28)
  , ("yellow_fade", 0x29)
  , ("cyan_fade", 0x2A)
  , ("purple_fade", 0x2B)
  , ("white_fade", 0x2C)
  , ("rg_cross_fade", 0x2D)
  , ("rb_cross_fade", 0x2E)
  , ("gb_cross_fade", 0x2F)
  , ("colorstrobe", 0x30)
  , ("red_strobe", 0x31)
  , ("green_strobe", 0x32)
  , ("blue_strobe", 0x33)
  , ("yellow_strobe", 0x34)
  , ("cyan_strobe", 0x35)
  , ("purple_strobe", 0x36)
  , ("white_strobe", 0x37)
  , ("colorjump", 0x38) ]

/-- `EFFECT_ID_NAME` (`light.py` line 156): the inverse dict,
code to effect name, built by swapping every entry of `EFFECT_MAP`. -/
def EFFECT_ID_NAME : List (Nat × String) :=
  EFFECT_MAP.map (fun p => (p.2, p.1))

/-- The reserved custom-pattern code (`light.py` line 157). -/
def EFFECT_CUSTOM_CODE : Nat := 0x60

/-- Modelled from the spec: `DEFAULT_EFFECT_SPEED`, imported from the
integration's `const` module (not in the source tree); "the default
effect speed" used for preset effects. -/
def DEFAULT_EFFECT_SPEED : Nat := 50

/-- Lexicographic comparison of character lists by code point. -/
def charListLe : List Char → List Char → Bool
  | [], _ => true
  | _ :: _, [] => false
  | a :: as, b :: bs =>
    if a.val < b.val then true
    else if b.val < a.val then false
    else charListLe as bs

/-- Lexicographic string comparison by code point (the order Python
`sorted` uses on strings). -/
def strLe (a b : String) : Bool := charListLe a.data b.data

/-- Insert a string into an already-sorted list of strings, keeping order. -/
def insertSorted (s : String) : List String → List String
  | [] => [s]
  | x :: xs => if strLe s x then s :: x :: xs else x :: insertSorted s xs

/-- Sort a list of strings lexicographically (models Python `sorted`). -/
def sortStrings (l : List String) : List String := l.foldr insertSorted []

/-- `FLUX_EFFECT_LIST` (`light.py` line 159):
`sorted(EFFECT_MAP) + [EFFECT_RANDOM]` — the sorted preset names followed
by the RANDOM pseudo-effect. -/
def FLUX_EFFECT_LIST : List String :=
  sortStrings (EFFECT_MAP.map Prod.fst) ++ [EFFECT_RANDOM]

/-! ## Mired/kelvin conversions -/

/-- Modelled from the spec: `color_temperature_kelvin_to_mired`, imported
from `homeassistant.util.color` (not in the source tree);
`kelvin_to_mired(k) = round(1_000_000 / k)`, rounding to the nearest
integer. -/
def color_temperature_kelvin_to_mired (kelvin : Nat) : Nat :=
  (2000000 + kelvin) / (2 * kelvin)

/-- Modelled from the spec: `color_temperature_mired_to_kelvin`, imported
from `homeassistant.util.color` (not in the source tree);
`mired_to_kelvin(m) = round(1_000_000 / m)`, rounding to the nearest
integer. -/
def color_temperature_mired_to_kelvin (mired : Nat) : Nat :=
  (2000000 + mired) / (2 * mired)

/-! ## Color modes (`light.py` lines 98-106) -/

/-- Native color modes reported by the device firmware, as named by the
`flux_led` library constants imported at `light.py` lines 9-15; `other`
covers any unrecognized native mode string. -/
inductive FluxColorMode where
  | rgb
  | rgbw
  | rgbww
  | cct
  | dim
  | other (s : String)
  deriving DecidableEq, Repr

/-- Home Assistant color modes used by the entity (imported constants). -/
inductive HassColorMode where
  | rgb
  | rgbw
  | rgbww
  | colorTemp
  | brightness
  | onoff
  deriving DecidableEq, Repr

/-- `FLUX_COLOR_MODE_TO_HASS` (`light.py` lines 98-104) with the
`.get(mode, COLOR_MODE_ONOFF)` default applied: unrecognized native modes
degrade to on/off. -/
def fluxColorModeToHass : FluxColorMode → HassColorMode
  | .rgb => .rgb
  | .rgbw => .rgbw
  | .rgbww => .rgbww
  | .cct => .colorTemp
  | .dim => .brightness
  | .other _ => .onoff

/-- `EFFECT_SUPPORT_MODES` (`light.py` line 106). -/
def EFFECT_SUPPORT_MODES : List HassColorMode :=
  [HassColorMode.rgb, HassColorMode.rgbw, HassColorMode.rgbww]

/-- Printable name of a Home Assistant color mode (the constants' string
values), used in the "Unsupported color mode" error message. -/
def HassColorMode.str : HassColorMode → String
  | .rgb => "rgb"
  | .rgbw => "rgbw"
  | .rgbww => "rgbww"
  | .colorTemp => "color_temp"
  | .brightness => "brightness"
  | .onoff => "onoff"

/-! ## The device collaborator

The `AIOWifiLedBulb` device object held by the coordinator.  The core
reads its cached state and issues commands to it; here its reported state
is a plain record and the issued commands are reified (see `Command`). -/

/-- The state the device collaborator reports, read fresh by every
accessor and by the dispatch.  `getWhiteTemperature` is the white-channel
pair `(temperature, brightness)` the device reports; the dispatch reads
its second component (`light.py` line 383). -/
structure Device where
  is_on : Bool
  brightness : Nat
  rgb : Nat × Nat × Nat
  rgbw : Nat × Nat × Nat × Nat
  rgbcw : Nat × Nat × Nat × Nat × Nat
  rgbww : Nat × Nat × Nat × Nat × Nat
  color_temp : Nat
  min_temp : Nat
  max_temp : Nat
  color_mode : FluxColorMode
  color_modes : List FluxColorMode
  preset_pattern_num : Nat
  getWhiteTemperature : Nat × Nat
  deriving DecidableEq, Repr

/-- A native command issued to the device collaborator.  `setLevels`
mirrors `async_set_levels(r, g, b, w, w2, brightness)`: each argument is
`some` exactly when the source call site passes it. -/
inductive Command where
  | turnOn
  | setWhiteTemp (kelvin : Nat) (brightness : Nat)
  | setLevels (r g b w w2 brightness : Option Nat)
  | setPresetPattern (code : Nat) (speed : Nat)
  | setCustomPattern (colors : List (Nat × Nat × Nat)) (speed_pct : Nat)
      (transition : String)
  deriving DecidableEq, Repr

/-! ## The entity (`FluxLight`) -/

/-- The constructed `FluxLight` entity: the device collaborator, the
attributes computed in `__init__` (`light.py` lines 283-310), and the
immutable custom-effect configuration. -/
structure FluxLight where
  device : Device
  attr_min_mireds : Nat
  attr_max_mireds : Nat
  attr_supported_color_modes : List HassColorMode
  attr_supports_effect : Bool
  attr_effect_list : Option (List String)
  custom_effect_colors : List (Nat × Nat × Nat)
  custom_effect_speed_pct : Nat
  custom_effect_transition : String
  deriving DecidableEq, Repr

/-- `FluxLight.__init__` (`light.py` lines 283-310): compute the mired
bounds from the device's kelvin range (with the `+ 1` "for rounding" on
`_attr_min_mireds`), map the native modes to the supported color-mode
set, and advertise the effect list — appending the custom effect exactly
when a non-empty custom color list was supplied — only when the
supported modes intersect `EFFECT_SUPPORT_MODES`. -/
def mkFluxLight (device : Device) (custom_effect_colors : List (Nat × Nat × Nat))
    (custom_effect_speed_pct : Nat) (custom_effect_transition : String) :
    FluxLight :=
  let modes := device.color_modes.map fluxColorModeToHass
  let hasEffects := modes.any (fun m => m ∈ EFFECT_SUPPORT_MODES)
  { device := device
    attr_min_mireds := color_temperature_kelvin_to_mired device.max_temp + 1
    attr_max_mireds := color_temperature_kelvin_to_mired device.min_temp
    attr_supported_color_modes := modes
    attr_supports_effect := hasEffects
    attr_effect_list :=
      if hasEffects then
        if custom_effect_colors ≠ [] then
          some (FLUX_EFFECT_LIST ++ [EFFECT_CUSTOM])
        else some FLUX_EFFECT_LIST
      else none
    custom_effect_colors := custom_effect_colors
    custom_effect_speed_pct := custom_effect_speed_pct
    custom_effect_transition := custom_effect_transition }

/-! ## Hue/saturation round trip

`color_RGB_to_hs` / `color_hs_to_RGB` are imported from
`homeassistant.util.color` (not in the source tree).  Modelled from the
spec: "convert native RGB to hue/saturation then back to RGB", the
standard HSV formulas with saturation/hue only (value discarded on the
way out, reconstructed at full value on the way back).  Rationals stand
for the floating-point intermediate values. -/

/-- Modelled from the spec: hue/saturation of an RGB point with channels
already scaled into `[0, 1]`.  Hue is reported in degrees `[0, 360)`,
saturation in percent. -/
def rgbToHS (r g b : ℚ) : ℚ × ℚ :=
  let maxc := max r (max g b)
  let minc := min r (min g b)
  if maxc = minc then (0, 0)
  else
    let d := maxc - minc
    let s := d / maxc
    let h0 : ℚ :=
      if r = maxc then (g - b) / d
      else if g = maxc then 2 + (b - r) / d
      else 4 + (r - g) / d
    (Int.fract (h0 / 6) * 360, s * 100)

/-- Modelled from the spec: `color_RGB_to_hs` — scale the 0-255 channels
into `[0, 1]` and take hue/saturation. -/
def color_RGB_to_hs (rgb : Nat × Nat × Nat) : ℚ × ℚ :=
  rgbToHS ((rgb.1 : ℚ) / 255) ((rgb.2.1 : ℚ) / 255) ((rgb.2.2 : ℚ) / 255)

/-- Modelled from the spec: the standard HSV-to-RGB reconstruction on
`[0, 1]`-scaled values. -/
def hsvToRGB (h s v : ℚ) : ℚ × ℚ × ℚ :=
  if s = 0 then (v, v, v)
  else
    let i : ℤ := ⌊h * 6⌋
    let f : ℚ := h * 6 - (i : ℚ)
    let p := v * (1 - s)
    let q := v * (1 - s * f)
    let t := v * (1 - s * (1 - f))
    match (i % 6).toNat with
    | 0 => (v, t, p)
    | 1 => (q, v, p)
    | 2 => (p, v, t)
    | 3 => (p, q, v)
    | 4 => (t, p, v)
    | _ => (v, p, q)

/-- Modelled from the spec: `color_hs_to_RGB` — reconstruct RGB from
hue/saturation at full value and rescale to 0-255 channels. -/
def color_hs_to_RGB (hs : ℚ × ℚ) : Nat × Nat × Nat :=
  let c := hsvToRGB (hs.1 / 360) (hs.2 / 100) 1
  (⌊c.1 * 255⌋.toNat, ⌊c.2.1 * 255⌋.toNat, ⌊c.2.2 * 255⌋.toNat)

/-! ## Mapping-engine helpers from `flux_led.utils`

These are imported at `light.py` lines 16-22 and are not in the source
tree; each is modelled from the spec (§4.1). -/

/-- Modelled from the spec: `color_temp_to_white_levels(kelvin,
brightness) -> (cold, warm)` — a linear cross-fade between pure
cool-white and pure warm-white as a function of kelvin's position in the
2700-6500 K range (kelvin clamped into that range), scaled so the levels
track brightness; both outputs in `[0, 255]`. -/
def color_temp_to_white_levels (kelvin brightness : Nat) : Nat × Nat :=
  let k := min (max kelvin 2700) 6500
  let cold := (2 * brightness * (k - 2700) + 3800) / (2 * 3800)
  let warm := (2 * brightness * (6500 - k) + 3800) / (2 * 3800)
  (cold, warm)

/-- Max of the four channels of an RGBW tuple. -/
def max4 (c : Nat × Nat × Nat × Nat) : Nat :=
  max (max c.1 c.2.1) (max c.2.2.1 c.2.2.2)

/-- Max of the five channels of a five-channel tuple. -/
def max5 (c : Nat × Nat × Nat × Nat × Nat) : Nat :=
  max c.1 (max (max c.2.1 c.2.2.1) (max c.2.2.2.1 c.2.2.2.2))

/-- Modelled from the spec: `rgbw_brightness(rgbw, brightness)` — rescale
the channels proportionally so the implied overall brightness (the
maximum channel) equals the requested value while preserving channel
ratios; an all-zero input maps to itself (no divide-by-zero). -/
def rgbw_brightness (c : Nat × Nat × Nat × Nat) (brightness : Nat) :
    Nat × Nat × Nat × Nat :=
  let m := max4 c
  if m = 0 then c
  else (c.1 * brightness / m, c.2.1 * brightness / m,
        c.2.2.1 * brightness / m, c.2.2.2 * brightness / m)

/-- Modelled from the spec: `rgbww_brightness(rgbwc, brightness)` — the
five-channel analogue of `rgbw_brightness`, on the native channel
ordering. -/
def rgbww_brightness (c : Nat × Nat × Nat × Nat × Nat) (brightness : Nat) :
    Nat × Nat × Nat × Nat × Nat :=
  let m := max5 c
  if m = 0 then c
  else (c.1 * brightness / m, c.2.1 * brightness / m,
        c.2.2.1 * brightness / m, c.2.2.2.1 * brightness / m,
        c.2.2.2.2 * brightness / m)

/-- Modelled from the spec: `rgbcw_brightness(rgbcw, brightness)` — the
same scaling rule on the external (red, green, blue, cold, warm)
ordering. -/
def rgbcw_brightness (c : Nat × Nat × Nat × Nat × Nat) (brightness : Nat) :
    Nat × Nat × Nat × Nat × Nat :=
  let m := max5 c
  if m = 0 then c
  else (c.1 * brightness / m, c.2.1 * brightness / m,
        c.2.2.1 * brightness / m, c.2.2.2.1 * brightness / m,
        c.2.2.2.2 * brightness / m)

/-- Modelled from the spec: `rgbcw_to_rgbwc` — the fixed index
permutation from the external (r, g, b, cold, warm) ordering to the
native (r, g, b, warm, cold) ordering. -/
def rgbcw_to_rgbwc (c : Nat × Nat × Nat × Nat × Nat) :
    Nat × Nat × Nat × Nat × Nat :=
  (c.1, c.2.1, c.2.2.1, c.2.2.2.2, c.2.2.2.1)

/-! ## State-derivation accessors (`light.py` lines 312-359) -/

/-- `is_on` — read from the device collaborator. -/
def FluxLight.is_on (l : FluxLight) : Bool := l.device.is_on

/-- `brightness` property (`light.py` lines 312-315). -/
def FluxLight.brightness (l : FluxLight) : Nat := l.device.brightness

/-- `color_temp` property (`light.py` lines 317-320): device kelvin in
mired. -/
def FluxLight.color_temp (l : FluxLight) : Nat :=
  color_temperature_kelvin_to_mired l.device.color_temp

/-- `rgb_color` property (`light.py` lines 322-329): the device's raw RGB
round-tripped through hue/saturation space. -/
def FluxLight.rgb_color (l : FluxLight) : Nat × Nat × Nat :=
  color_hs_to_RGB (color_RGB_to_hs l.device.rgb)

/-- `rgbw_color` property (`light.py` lines 331-335). -/
def FluxLight.rgbw_color (l : FluxLight) : Nat × Nat × Nat × Nat :=
  l.device.rgbw

/-- `rgbww_color` property (`light.py` lines 337-341): the device's rgbcw
tuple. -/
def FluxLight.rgbww_color (l : FluxLight) : Nat × Nat × Nat × Nat × Nat :=
  l.device.rgbcw

/-- `rgbwc_color` property (`light.py` lines 343-347): the device's rgbww
tuple. -/
def FluxLight.rgbwc_color (l : FluxLight) : Nat × Nat × Nat × Nat × Nat :=
  l.device.rgbww

/-- `color_mode` property (`light.py` lines 349-352). -/
def FluxLight.color_mode (l : FluxLight) : HassColorMode :=
  fluxColorModeToHass l.device.color_mode

/-- `effect` property (`light.py` lines 354-359): the custom code reports
CUSTOM, otherwise the preset code is reverse looked up. -/
def FluxLight.effect (l : FluxLight) : Option String :=
  if l.device.preset_pattern_num = EFFECT_CUSTOM_CODE then some EFFECT_CUSTOM
  else EFFECT_ID_NAME.lookup l.device.preset_pattern_num

/-! ## The turn-on intent dispatch (`light.py` lines 361-459) -/

/-- The `kwargs` bag accepted by `_async_turn_on`: each optional service
attribute is a field, `none` when the attribute is absent from the call. -/
structure TurnOnArgs where
  brightness : Option Nat := none
  rgb_color : Option (Nat × Nat × Nat) := none
  rgbw_color : Option (Nat × Nat × Nat × Nat) := none
  rgbww_color : Option (Nat × Nat × Nat × Nat × Nat) := none
  color_temp : Option Nat := none
  effect : Option String := none
  transition : Option Nat := none
  deriving DecidableEq, Repr

/-- `not kwargs` in the source: no attribute was supplied at all. -/
def TurnOnArgs.isEmpty (k : TurnOnArgs) : Bool :=
  k.brightness.isNone && k.rgb_color.isNone && k.rgbw_color.isNone &&
  k.rgbww_color.isNone && k.color_temp.isNone && k.effect.isNone &&
  k.transition.isNone

/-- The rule-dispatch portion of `_async_turn_on` (`light.py` lines
368-459): everything after the turn-on prelude.  Returns the list of
commands issued by the dispatch (`inl`) or the message of the raised
`ValueError` (`inr`).  `rand` stands for the three
`random.randint(0, 255)` draws of the RANDOM effect branch. -/
def dispatch (l : FluxLight) (kwargs : TurnOnArgs) (rand : Nat × Nat × Nat) :
    List Command ⊕ String :=
  let brightness := kwargs.brightness.getD l.brightness
  match kwargs.color_temp with
  | some color_temp_mired =>
    let color_temp_kelvin := color_temperature_mired_to_kelvin color_temp_mired
    if l.color_mode ≠ HassColorMode.rgbww then
      Sum.inl [Command.setWhiteTemp color_temp_kelvin brightness]
    else
      let wb := kwargs.brightness.getD l.device.getWhiteTemperature.2
      let cw := color_temp_to_white_levels color_temp_kelvin wb
      Sum.inl [Command.setLevels (some 0) (some 0) (some 0) (some cw.2)
        (some cw.1) none]
  | none =>
  match kwargs.rgb_color with
  | some rgb =>
    Sum.inl [Command.setLevels (some rgb.1) (some rgb.2.1) (some rgb.2.2)
      none none (some brightness)]
  | none =>
  match kwargs.rgbw_color with
  | some rgbwArg =>
    let rgbw := match kwargs.brightness with
      | some _ => rgbw_brightness rgbwArg brightness
      | none => rgbwArg
    Sum.inl [Command.setLevels (some rgbw.1) (some rgbw.2.1)
      (some rgbw.2.2.1) (some rgbw.2.2.2) none none]
  | none =>
  match kwargs.rgbww_color with
  | some rgbcwArg =>
    let rgbcw := match kwargs.brightness with
      | some _ => rgbcw_brightness rgbcwArg brightness
      | none => rgbcwArg
    let v := rgbcw_to_rgbwc rgbcw
    Sum.inl [Command.setLevels (some v.1) (some v.2.1) (some v.2.2.1)
      (some v.2.2.2.1) (some v.2.2.2.2) none]
  | none =>
  match kwargs.effect with
  | some effect =>
    if effect = EFFECT_RANDOM then
      Sum.inl [Command.setLevels (some rand.1) (some rand.2.1)
        (some rand.2.2) none none none]
    else if effect = EFFECT_CUSTOM then
      if l.custom_effect_colors ≠ [] then
        Sum.inl [Command.setCustomPattern l.custom_effect_colors
          l.custom_effect_speed_pct l.custom_effect_transition]
      else Sum.inl []
    else
      match EFFECT_MAP.lookup effect with
      | some code => Sum.inl [Command.setPresetPattern code DEFAULT_EFFECT_SPEED]
      | none => Sum.inr ("Unknown effect " ++ effect)
  | none =>
  match l.color_mode with
  | HassColorMode.colorTemp =>
    Sum.inl [Command.setWhiteTemp l.device.color_temp brightness]
  | HassColorMode.rgb =>
    let rgb := l.rgb_color
    Sum.inl [Command.setLevels (some rgb.1) (some rgb.2.1) (some rgb.2.2)
      none none (some brightness)]
  | HassColorMode.rgbw =>
    let v := rgbw_brightness l.rgbw_color brightness
    Sum.inl [Command.setLevels (some v.1) (some v.2.1) (some v.2.2.1)
      (some v.2.2.2) none none]
  | HassColorMode.rgbww =>
    let v := rgbww_brightness l.rgbwc_color brightness
    Sum.inl [Command.setLevels (some v.1) (some v.2.1) (some v.2.2.1)
      (some v.2.2.2.1) (some v.2.2.2.2) none]
  | HassColorMode.brightness =>
    Sum.inl [Command.setLevels none none none (some brightness) none none]
  | mode => Sum.inr ("Unsupported color mode " ++ mode.str)

/-- The outcome of one `_async_turn_on` call: whether the native turn-on
command was issued by the prelude, the commands issued by the dispatch
rules, and the message of a raised `ValueError` (if any). -/
structure TurnOnResult where
  turnedOn : Bool
  dispatched : List Command
  error : Option String
  deriving DecidableEq, Repr

/-- `_async_turn_on` (`light.py` lines 361-459): if the device is off,
the native turn-on command is issued first and an attribute-less call
stops there; otherwise the dispatch rules run. -/
def asyncTurnOn (l : FluxLight) (kwargs : TurnOnArgs) (rand : Nat × Nat × Nat) :
    TurnOnResult :=
  if l.is_on then
    match dispatch l kwargs rand with
    | Sum.inl cmds => ⟨false, cmds, none⟩
    | Sum.inr msg => ⟨false, [], some msg⟩
  else if kwargs.isEmpty then ⟨true, [], none⟩
  else
    match dispatch l kwargs rand with
    | Sum.inl cmds => ⟨true, cmds, none⟩
    | Sum.inr msg => ⟨true, [], some msg⟩

/-- All commands the device collaborator received during the call, in
order: the turn-on prelude (when the device was off) followed by the
dispatched commands. -/
def TurnOnResult.allCommands (r : TurnOnResult) : List Command :=
  (if r.turnedOn then [Command.turnOn] else []) ++ r.dispatched

/-! ## Sample device states used by concrete witnesses -/

/-- A concrete device state: a CCT-mode bulb, on, with the common
2700-6500 K range. -/
def sampleDevice : Device :=
  { is_on := true
    brightness := 100
    rgb := (255, 0, 0)
    rgbw := (255, 0, 0, 0)
    rgbcw := (255, 0, 0, 0, 0)
    rgbww := (255, 0, 0, 0, 0)
    color_temp := 3500
    min_temp := 2700
    max_temp := 6500
    color_mode := FluxColorMode.cct
    color_modes := [FluxColorMode.cct]
    preset_pattern_num := 0
    getWhiteTemperature := (3500, 140) }

/-- The same device, currently off. -/
def sampleDeviceOff : Device := { sampleDevice with is_on := false }

/-- A device currently in RGBWW mode. -/
def sampleDeviceRgbww : Device :=
  { sampleDevice with
    color_mode := FluxColorMode.rgbww
    color_modes := [FluxColorMode.rgbww] }

/-- A concrete entity over `sampleDevice` with no custom colors. -/
def sampleLight : FluxLight := mkFluxLight sampleDevice [] 50 "gradual"

/-- A concrete entity over `sampleDeviceOff` with no custom colors. -/
def sampleLightOff : FluxLight := mkFluxLight sampleDeviceOff [] 50 "gradual"

/-- A concrete entity over `sampleDeviceRgbww` with no custom colors. -/
def sampleLightRgbww : FluxLight := mkFluxLight sampleDeviceRgbww [] 50 "gradual"

/-- A concrete entity over `sampleDevice` with one custom color. -/
def sampleLightCustom : FluxLight :=
  mkFluxLight sampleDevice [(255, 0, 0)] 60 "jump"

/-! ## Helper lemmas about the dispatch -/

/-- Whether a command is a `set_levels` call. -/
def Command.isSetLevels : Command → Bool
  | .setLevels _ _ _ _ _ _ => true
  | _ => false

/-- When some attribute was supplied, `_async_turn_on` runs the dispatch
whether or not the device was on, recording the prelude flag. -/
theorem asyncTurnOn_not_empty (l : FluxLight) (kwargs : TurnOnArgs)
    (rand : Nat × Nat × Nat) (h : kwargs.isEmpty = false) :
    asyncTurnOn l kwargs rand =
      match dispatch l kwargs rand with
      | Sum.inl cmds => ⟨!l.is_on, cmds, none⟩
      | Sum.inr msg => ⟨!l.is_on, [], some msg⟩ := by
  unfold asyncTurnOn
  cases hd : dispatch l kwargs rand <;> cases hon : l.is_on <;> simp [h, hd, hon]

/-- The dispatch rules never issue the native turn-on command. -/
theorem turnOn_not_mem_dispatch (l : FluxLight) (kwargs : TurnOnArgs)
    (rand : Nat × Nat × Nat) (cmds : List Command)
    (h : dispatch l kwargs rand = Sum.inl cmds) :
    Command.turnOn ∉ cmds := by
  unfold dispatch at h
  repeat' split at h
  all_goals cases h
  all_goals simp

/-- The dispatch rules issue at most one command. -/
theorem dispatch_length_le_one (l : FluxLight) (kwargs : TurnOnArgs)
    (rand : Nat × Nat × Nat) (cmds : List Command)
    (h : dispatch l kwargs rand = Sum.inl cmds) :
    cmds.length ≤ 1 := by
  unfold dispatch at h
  repeat' split at h
  all_goals cases h
  all_goals simp

/-! ## Theorems -/

/-- C7: the effect table has 20 entries whose codes cover exactly the
ordinal range 0x25-0x38, `EFFECT_ID_NAME` is its exact inverse, and for
every code in [0x25, 0x38] looking up the code's name and then that
name's code returns the original code. -/
theorem effect_map_round_trip :
    EFFECT_MAP.length = 20
    ∧ EFFECT_MAP.map Prod.snd = (List.range 20).map (fun i => 0x25 + i)
    ∧ (EFFECT_MAP.all fun p => EFFECT_ID_NAME.lookup p.2 == some p.1) = true
    ∧ (EFFECT_ID_NAME.all fun q => EFFECT_MAP.lookup q.2 == some q.1) = true
    ∧ (((List.range 0x39).drop 0x25).all fun c =>
        match EFFECT_ID_NAME.lookup c with
        | some n => EFFECT_MAP.lookup n == some c
        | none => false) = true := by
  decide

/-- C1: when a color-temperature attribute is present, the dispatch
converts mired to kelvin; in RGBWW mode it takes the white-pair
brightness (or the explicit one), runs the white-levels conversion and
issues the single levels command with r=g=b=0 and the computed
warm/cold values; in every other mode it issues the native
white-temperature command with (kelvin, brightness) and no levels
command at all. -/
theorem color_temp_dispatch (l : FluxLight) (kwargs : TurnOnArgs)
    (rand : Nat × Nat × Nat) (m : Nat) (h : kwargs.color_temp = some m) :
    (l.color_mode = HassColorMode.rgbww →
      (asyncTurnOn l kwargs rand).dispatched
        = [Command.setLevels (some 0) (some 0) (some 0)
            (some (color_temp_to_white_levels (color_temperature_mired_to_kelvin m)
              (kwargs.brightness.getD l.device.getWhiteTemperature.2)).2)
            (some (color_temp_to_white_levels (color_temperature_mired_to_kelvin m)
              (kwargs.brightness.getD l.device.getWhiteTemperature.2)).1)
            none])
    ∧ (l.color_mode ≠ HassColorMode.rgbww →
      (asyncTurnOn l kwargs rand).dispatched
        = [Command.setWhiteTemp (color_temperature_mired_to_kelvin m)
            (kwargs.brightness.getD l.brightness)]
      ∧ ∀ c ∈ (asyncTurnOn l kwargs rand).allCommands, c.isSetLevels = false) := by
  have hne : kwargs.isEmpty = false := by
    simp [TurnOnArgs.isEmpty, h]
  rw [asyncTurnOn_not_empty l kwargs rand hne]
  constructor
  · intro hm
    have hd : dispatch l kwargs rand
        = Sum.inl [Command.setLevels (some 0) (some 0) (some 0)
            (some (color_temp_to_white_levels (color_temperature_mired_to_kelvin m)
              (kwargs.brightness.getD l.device.getWhiteTemperature.2)).2)
            (some (color_temp_to_white_levels (color_temperature_mired_to_kelvin m)
              (kwargs.brightness.getD l.device.getWhiteTemperature.2)).1)
            none] := by
      simp [dispatch, h, hm]
    rw [hd]
  · intro hm
    have hd : dispatch l kwargs rand
        = Sum.inl [Command.setWhiteTemp (color_temperature_mired_to_kelvin m)
            (kwargs.brightness.getD l.brightness)] := by
      simp [dispatch, h, hm]
    rw [hd]
    refine ⟨rfl, ?_⟩
    intro c hc
    simp [TurnOnResult.allCommands] at hc
    rcases hc with hc | hc <;> simp [hc, Command.isSetLevels]

/-- C1 witness: a CCT-mode light asked for `color_temp_mired = 250` with
no explicit brightness gets the native white-temperature command at the
converted kelvin and the current brightness, and no levels command. -/
theorem color_temp_dispatch_witness :
    (({ color_temp := some 250 } : TurnOnArgs).color_temp = some 250)
    ∧ (asyncTurnOn sampleLight { color_temp := some 250 } (0, 0, 0)).dispatched
      = [Command.setWhiteTemp 4000 100] := by
  constructor
  · rfl
  · have h := ((color_temp_dispatch sampleLight { color_temp := some 250 }
        (0, 0, 0) 250 rfl).2 (by decide)).1
    rw [h]
    rfl

/-- C2: if the device is off, the native turn-on command comes first and
an attribute-less call issues nothing else; if the device is on, the
native turn-on command is never issued, and a call with only
`brightness = 128` re-issues the current color at brightness 128 through
the mode-specific brightness-only branch. -/
theorem turn_on_sequence (l : FluxLight) (kwargs : TurnOnArgs)
    (rand : Nat × Nat × Nat) :
    (l.is_on = false →
      (asyncTurnOn l kwargs rand).allCommands.head? = some Command.turnOn
      ∧ (kwargs.isEmpty = true →
          (asyncTurnOn l kwargs rand).allCommands = [Command.turnOn]))
    ∧ (l.is_on = true →
      Command.turnOn ∉ (asyncTurnOn l kwargs rand).allCommands
      ∧ (kwargs = { brightness := some 128 } →
        asyncTurnOn l kwargs rand =
          match l.color_mode with
          | HassColorMode.colorTemp =>
            ⟨false, [Command.setWhiteTemp l.device.color_temp 128], none⟩
          | HassColorMode.rgb =>
            ⟨false, [Command.setLevels (some l.rgb_color.1) (some l.rgb_color.2.1)
              (some l.rgb_color.2.2) none none (some 128)], none⟩
          | HassColorMode.rgbw =>
            ⟨false, [Command.setLevels (some (rgbw_brightness l.rgbw_color 128).1)
              (some (rgbw_brightness l.rgbw_color 128).2.1)
              (some (rgbw_brightness l.rgbw_color 128).2.2.1)
              (some (rgbw_brightness l.rgbw_color 128).2.2.2) none none], none⟩
          | HassColorMode.rgbww =>
            ⟨false, [Command.setLevels (some (rgbww_brightness l.rgbwc_color 128).1)
              (some (rgbww_brightness l.rgbwc_color 128).2.1)
              (some (rgbww_brightness l.rgbwc_color 128).2.2.1)
              (some (rgbww_brightness l.rgbwc_color 128).2.2.2.1)
              (some (rgbww_brightness l.rgbwc_color 128).2.2.2.2) none], none⟩
          | HassColorMode.brightness =>
            ⟨false, [Command.setLevels none none none (some 128) none none], none⟩
          | HassColorMode.onoff =>
            ⟨false, [], some ("Unsupported color mode "
              ++ HassColorMode.onoff.str)⟩)) := by
  constructor
  · intro hoff
    constructor
    · cases he : kwargs.isEmpty
      · rw [asyncTurnOn_not_empty l kwargs rand he]
        cases hd : dispatch l kwargs rand <;>
          simp [TurnOnResult.allCommands, hoff]
      · simp [asyncTurnOn, hoff, he, TurnOnResult.allCommands]
    · intro he
      simp [asyncTurnOn, hoff, he, TurnOnResult.allCommands]
  · intro hon
    constructor
    · cases hd : dispatch l kwargs rand with
      | inl cmds =>
        have hmem := turnOn_not_mem_dispatch l kwargs rand cmds hd
        simp [asyncTurnOn, hon, hd, TurnOnResult.allCommands, hmem]
      | inr msg =>
        simp [asyncTurnOn, hon, hd, TurnOnResult.allCommands]
    · intro hk
      subst hk
      cases hm : l.color_mode <;>
        simp [asyncTurnOn, dispatch, hon, hm, HassColorMode.str]

/-- C2 witness: turning on an off CCT-mode device with no attributes
issues exactly the native turn-on command; the same device already on,
asked for only `brightness = 128`, gets a single white-temperature
re-issue at the current kelvin and brightness 128, with no turn-on
command. -/
theorem turn_on_sequence_witness :
    (sampleLightOff.is_on = false
      ∧ (asyncTurnOn sampleLightOff {} (0, 0, 0)).allCommands
          = [Command.turnOn])
    ∧ (sampleLight.is_on = true
      ∧ Command.turnOn ∉
          (asyncTurnOn sampleLight { brightness := some 128 } (0, 0, 0)).allCommands
      ∧ asyncTurnOn sampleLight { brightness := some 128 } (0, 0, 0)
          = ⟨false, [Command.setWhiteTemp 3500 128], none⟩) := by
  refine ⟨⟨rfl, ?_⟩, rfl, ?_, ?_⟩
  · exact ((turn_on_sequence sampleLightOff {} (0, 0, 0)).1 rfl).2 rfl
  · exact ((turn_on_sequence sampleLight { brightness := some 128 }
      (0, 0, 0)).2 rfl).1
  · have h := ((turn_on_sequence sampleLight { brightness := some 128 }
      (0, 0, 0)).2 rfl).2 rfl
    rw [h]
    rfl

/-- `kwargs` with every attribute of lower priority than color
temperature removed. -/
def TurnOnArgs.onlyCT (k : TurnOnArgs) : TurnOnArgs :=
  { k with rgb_color := none, rgbw_color := none, rgbww_color := none, effect := none }

/-- `kwargs` with every attribute of lower priority than rgb removed. -/
def TurnOnArgs.onlyRgb (k : TurnOnArgs) : TurnOnArgs :=
  { k with rgbw_color := none, rgbww_color := none, effect := none }

/-- `kwargs` with every attribute of lower priority than rgbw removed. -/
def TurnOnArgs.onlyRgbw (k : TurnOnArgs) : TurnOnArgs :=
  { k with rgbww_color := none, effect := none }

/-- `kwargs` with every attribute of lower priority than rgbww removed. -/
def TurnOnArgs.onlyRgbww (k : TurnOnArgs) : TurnOnArgs :=
  { k with effect := none }

/-- C3 counterexample: turning on an off CCT-mode device with
`brightness = 128` issues two native commands — the turn-on prelude and
the white-temperature re-issue — so "at most one native command per
intent" fails as stated when the turn-on command is counted. -/
theorem at_most_one_command_counterexample :
    (asyncTurnOn sampleLightOff { brightness := some 128 } (0, 0, 0)).allCommands
      = [Command.turnOn, Command.setWhiteTemp 3500 128]
    ∧ ¬((asyncTurnOn sampleLightOff { brightness := some 128 }
          (0, 0, 0)).allCommands.length ≤ 1) := by
  decide

/-- C3 (amended): the dispatch evaluates its rules in the fixed priority
order color-temperature, rgb, rgbw, rgbww, effect, brightness-only, and
the first matching rule wins: when a higher-priority attribute is
present the lower-priority attributes are ignored entirely.  The
dispatch issues at most one native command beyond the turn-on prelude
(so exactly at most one in total when the device was already on), with
no internal retry. -/
theorem dispatch_priority_amended (l : FluxLight) (kwargs : TurnOnArgs)
    (rand : Nat × Nat × Nat) :
    (asyncTurnOn l kwargs rand).dispatched.length ≤ 1
    ∧ (l.is_on = true → (asyncTurnOn l kwargs rand).allCommands.length ≤ 1)
    ∧ (kwargs.color_temp.isSome = true →
        (asyncTurnOn l kwargs rand).dispatched
          = (asyncTurnOn l kwargs.onlyCT rand).dispatched)
    ∧ (kwargs.color_temp = none → kwargs.rgb_color.isSome = true →
        (asyncTurnOn l kwargs rand).dispatched
          = (asyncTurnOn l kwargs.onlyRgb rand).dispatched)
    ∧ (kwargs.color_temp = none → kwargs.rgb_color = none →
        kwargs.rgbw_color.isSome = true →
        (asyncTurnOn l kwargs rand).dispatched
          = (asyncTurnOn l kwargs.onlyRgbw rand).dispatched)
    ∧ (kwargs.color_temp = none → kwargs.rgb_color = none →
        kwargs.rgbw_color = none → kwargs.rgbww_color.isSome = true →
        (asyncTurnOn l kwargs rand).dispatched
          = (asyncTurnOn l kwargs.onlyRgbww rand).dispatched) := by
  have hlen : (asyncTurnOn l kwargs rand).dispatched.length ≤ 1 := by
    unfold asyncTurnOn
    cases hd : dispatch l kwargs rand with
    | inl cmds =>
      have := dispatch_length_le_one l kwargs rand cmds hd
      cases hon : l.is_on <;> cases he : kwargs.isEmpty <;> simp_all
    | inr msg =>
      cases hon : l.is_on <;> cases he : kwargs.isEmpty <;> simp_all
  refine ⟨hlen, ?_, ?_, ?_, ?_, ?_⟩
  · intro hon
    have hoff : (asyncTurnOn l kwargs rand).turnedOn = false := by
      unfold asyncTurnOn
      cases hd : dispatch l kwargs rand <;> simp [hon, hd]
    simp [TurnOnResult.allCommands, hoff, hlen]
  · intro hct
    obtain ⟨m, hm⟩ := Option.isSome_iff_exists.mp hct
    have hne1 : kwargs.isEmpty = false := by simp [TurnOnArgs.isEmpty, hm]
    have hne2 : kwargs.onlyCT.isEmpty = false := by
      simp [TurnOnArgs.isEmpty, TurnOnArgs.onlyCT, hm]
    rw [asyncTurnOn_not_empty l _ rand hne1, asyncTurnOn_not_empty l _ rand hne2]
    have hd : dispatch l kwargs rand = dispatch l kwargs.onlyCT rand := by
      simp [dispatch, TurnOnArgs.onlyCT, hm]
    rw [hd]
  · intro hct hrgb
    obtain ⟨c, hc⟩ := Option.isSome_iff_exists.mp hrgb
    have hne1 : kwargs.isEmpty = false := by simp [TurnOnArgs.isEmpty, hc]
    have hne2 : kwargs.onlyRgb.isEmpty = false := by
      simp [TurnOnArgs.isEmpty, TurnOnArgs.onlyRgb, hc]
    rw [asyncTurnOn_not_empty l _ rand hne1, asyncTurnOn_not_empty l _ rand hne2]
    have hd : dispatch l kwargs rand = dispatch l kwargs.onlyRgb rand := by
      simp [dispatch, TurnOnArgs.onlyRgb, hct, hc]
    rw [hd]
  · intro hct hrgb hrgbw
    obtain ⟨c, hc⟩ := Option.isSome_iff_exists.mp hrgbw
    have hne1 : kwargs.isEmpty = false := by simp [TurnOnArgs.isEmpty, hc]
    have hne2 : kwargs.onlyRgbw.isEmpty = false := by
      simp [TurnOnArgs.isEmpty, TurnOnArgs.onlyRgbw, hc]
    rw [asyncTurnOn_not_empty l _ rand hne1, asyncTurnOn_not_empty l _ rand hne2]
    have hd : dispatch l kwargs rand = dispatch l kwargs.onlyRgbw rand := by
      simp [dispatch, TurnOnArgs.onlyRgbw, hct, hrgb, hc]
    rw [hd]
  · intro hct hrgb hrgbw hrgbww
    obtain ⟨c, hc⟩ := Option.isSome_iff_exists.mp hrgbww
    have hne1 : kwargs.isEmpty = false := by simp [TurnOnArgs.isEmpty, hc]
    have hne2 : kwargs.onlyRgbww.isEmpty = false := by
      simp [TurnOnArgs.isEmpty, TurnOnArgs.onlyRgbww, hc]
    rw [asyncTurnOn_not_empty l _ rand hne1, asyncTurnOn_not_empty l _ rand hne2]
    have hd : dispatch l kwargs rand = dispatch l kwargs.onlyRgbww rand := by
      simp [dispatch, TurnOnArgs.onlyRgbww, hct, hrgb, hrgbw, hc]
    rw [hd]

/-- C3 witness: with both `color_temp` and `rgb` supplied to an already-on
light, the dispatched command list equals the one obtained with the rgb
attribute dropped (only the color-temperature rule fires), and at most
one command is issued in total. -/
theorem dispatch_priority_amended_witness :
    (({ color_temp := some 250, rgb_color := some (10, 20, 30) } :
        TurnOnArgs).color_temp.isSome = true)
    ∧ sampleLight.is_on = true
    ∧ (asyncTurnOn sampleLight
        { color_temp := some 250, rgb_color := some (10, 20, 30) }
        (0, 0, 0)).dispatched
      = (asyncTurnOn sampleLight
          ({ color_temp := some 250, rgb_color := some (10, 20, 30) } :
            TurnOnArgs).onlyCT (0, 0, 0)).dispatched
    ∧ (asyncTurnOn sampleLight
        { color_temp := some 250, rgb_color := some (10, 20, 30) }
        (0, 0, 0)).allCommands.length ≤ 1 := by
  refine ⟨rfl, rfl, ?_, ?_⟩
  · exact (dispatch_priority_amended sampleLight
      { color_temp := some 250, rgb_color := some (10, 20, 30) }
      (0, 0, 0)).2.2.1 rfl
  · exact (dispatch_priority_amended sampleLight
      { color_temp := some 250, rgb_color := some (10, 20, 30) }
      (0, 0, 0)).2.1 rfl

/-- C4 counterexample: an unknown effect name on an off device still
issues the native turn-on command before the validation error is raised,
so "issues zero commands to the device collaborator" fails as stated. -/
theorem invalid_effect_counterexample :
    (asyncTurnOn sampleLightOff { effect := some "nonexistent_effect" }
        (0, 0, 0)).error = some "Unknown effect nonexistent_effect"
    ∧ (asyncTurnOn sampleLightOff { effect := some "nonexistent_effect" }
        (0, 0, 0)).allCommands = [Command.turnOn]
    ∧ ¬((asyncTurnOn sampleLightOff { effect := some "nonexistent_effect" }
        (0, 0, 0)).allCommands = []) := by
  decide

/-- C4 (amended): for every effect name outside the preset table and
different from RANDOM and CUSTOM, the dispatch raises the
input-validation error, surfaced to the caller, and issues no command
beyond the turn-on prelude; in particular an already-on device receives
zero commands. -/
theorem invalid_effect_amended (l : FluxLight) (kwargs : TurnOnArgs)
    (rand : Nat × Nat × Nat) (e : String)
    (hct : kwargs.color_temp = none) (hrgb : kwargs.rgb_color = none)
    (hrgbw : kwargs.rgbw_color = none) (hrgbww : kwargs.rgbww_color = none)
    (heff : kwargs.effect = some e)
    (hrand : e ≠ EFFECT_RANDOM) (hcust : e ≠ EFFECT_CUSTOM)
    (hmap : EFFECT_MAP.lookup e = none) :
    (asyncTurnOn l kwargs rand).error = some ("Unknown effect " ++ e)
    ∧ (asyncTurnOn l kwargs rand).dispatched = []
    ∧ (l.is_on = true → (asyncTurnOn l kwargs rand).allCommands = []) := by
  have hne : kwargs.isEmpty = false := by simp [TurnOnArgs.isEmpty, heff]
  have hd : dispatch l kwargs rand = Sum.inr ("Unknown effect " ++ e) := by
    simp [dispatch, hct, hrgb, hrgbw, hrgbww, heff, hrand, hcust, hmap]
  rw [asyncTurnOn_not_empty l kwargs rand hne, hd]
  refine ⟨rfl, rfl, ?_⟩
  intro hon
  simp [TurnOnResult.allCommands, hon]

/-- C4 witness: `effect = "nonexistent_effect"` on an already-on light
raises the validation error and issues zero commands. -/
theorem invalid_effect_amended_witness :
    (({ effect := some "nonexistent_effect" } : TurnOnArgs).effect
        = some "nonexistent_effect")
    ∧ EFFECT_MAP.lookup "nonexistent_effect" = none
    ∧ sampleLight.is_on = true
    ∧ (asyncTurnOn sampleLight { effect := some "nonexistent_effect" }
        (0, 0, 0)).error = some ("Unknown effect " ++ "nonexistent_effect")
    ∧ (asyncTurnOn sampleLight { effect := some "nonexistent_effect" }
        (0, 0, 0)).allCommands = [] := by
  refine ⟨rfl, by decide, rfl, ?_, ?_⟩
  · exact (invalid_effect_amended sampleLight _ (0, 0, 0) "nonexistent_effect"
      rfl rfl rfl rfl rfl (by decide) (by decide) (by decide)).1
  · exact (invalid_effect_amended sampleLight _ (0, 0, 0) "nonexistent_effect"
      rfl rfl rfl rfl rfl (by decide) (by decide) (by decide)).2.2 rfl

/-- C5 counterexample: requesting the CUSTOM effect with an empty
configured color list on an off device still issues the native turn-on
command, so "issues zero commands" fails as stated (no error is raised,
as the claim says). -/
theorem custom_effect_counterexample :
    (asyncTurnOn sampleLightOff { effect := some "custom" } (0, 0, 0)).error
      = none
    ∧ (asyncTurnOn sampleLightOff { effect := some "custom" }
        (0, 0, 0)).allCommands = [Command.turnOn]
    ∧ ¬((asyncTurnOn sampleLightOff { effect := some "custom" }
        (0, 0, 0)).allCommands = []) := by
  decide

/-- C5 (amended): when the CUSTOM effect is requested and the configured
custom color list is empty, the dispatch raises no error and issues no
command beyond the turn-on prelude (zero commands on an already-on
device); when the list is non-empty, exactly one custom-pattern command
is dispatched, carrying the stored colors, speed percentage and
transition style. -/
theorem custom_effect_amended (l : FluxLight) (kwargs : TurnOnArgs)
    (rand : Nat × Nat × Nat)
    (hct : kwargs.color_temp = none) (hrgb : kwargs.rgb_color = none)
    (hrgbw : kwargs.rgbw_color = none) (hrgbww : kwargs.rgbww_color = none)
    (heff : kwargs.effect = some EFFECT_CUSTOM) :
    (l.custom_effect_colors = [] →
      (asyncTurnOn l kwargs rand).error = none
      ∧ (asyncTurnOn l kwargs rand).dispatched = []
      ∧ (l.is_on = true → (asyncTurnOn l kwargs rand).allCommands = []))
    ∧ (l.custom_effect_colors ≠ [] →
      (asyncTurnOn l kwargs rand).error = none
      ∧ (asyncTurnOn l kwargs rand).dispatched
        = [Command.setCustomPattern l.custom_effect_colors
            l.custom_effect_speed_pct l.custom_effect_transition]) := by
  have hne : kwargs.isEmpty = false := by simp [TurnOnArgs.isEmpty, heff]
  rw [asyncTurnOn_not_empty l kwargs rand hne]
  constructor
  · intro hcolors
    have hd : dispatch l kwargs rand = Sum.inl [] := by
      simp [dispatch, hct, hrgb, hrgbw, hrgbww, heff, hcolors,
        EFFECT_CUSTOM, EFFECT_RANDOM]
    rw [hd]
    refine ⟨rfl, rfl, ?_⟩
    intro hon
    simp [TurnOnResult.allCommands, hon]
  · intro hcolors
    have hd : dispatch l kwargs rand
        = Sum.inl [Command.setCustomPattern l.custom_effect_colors
            l.custom_effect_speed_pct l.custom_effect_transition] := by
      simp [dispatch, hct, hrgb, hrgbw, hrgbww, heff, hcolors,
        EFFECT_CUSTOM, EFFECT_RANDOM]
    rw [hd]
    exact ⟨rfl, rfl⟩

/-- C5 witness: on an already-on light with no configured custom colors,
`effect = "custom"` raises no error and issues zero commands; with one
configured color it dispatches exactly the stored custom pattern. -/
theorem custom_effect_amended_witness :
    (({ effect := some "custom" } : TurnOnArgs).effect = some EFFECT_CUSTOM)
    ∧ sampleLight.custom_effect_colors = []
    ∧ (asyncTurnOn sampleLight { effect := some "custom" } (0, 0, 0)).error = none
    ∧ (asyncTurnOn sampleLight { effect := some "custom" }
        (0, 0, 0)).allCommands = []
    ∧ (asyncTurnOn sampleLightCustom { effect := some "custom" }
        (0, 0, 0)).dispatched
      = [Command.setCustomPattern [(255, 0, 0)] 60 "jump"] := by
  refine ⟨rfl, rfl, ?_, ?_, ?_⟩
  · exact ((custom_effect_amended sampleLight _ (0, 0, 0)
      rfl rfl rfl rfl rfl).1 rfl).1
  · exact ((custom_effect_amended sampleLight _ (0, 0, 0)
      rfl rfl rfl rfl rfl).1 rfl).2.2 rfl
  · exact ((custom_effect_amended sampleLightCustom _ (0, 0, 0)
      rfl rfl rfl rfl rfl).2 (by decide)).2

/-- C6 counterexample: on a device with kelvin range [2700, 6500] the
code yields mired bounds (155, 370): `kelvin_to_mired(6500) = 154` and
`kelvin_to_mired(2700) = 370`, so the +1 offset sits on the minimum
(coolest) mired bound, not on the maximum (warmest) mired bound as the
claim states — the bounds predicted by the claim would be (154, 371). -/
theorem mired_bounds_counterexample :
    (mkFluxLight sampleDevice [] 50 "gradual").attr_min_mireds = 155
    ∧ (mkFluxLight sampleDevice [] 50 "gradual").attr_max_mireds = 370
    ∧ color_temperature_kelvin_to_mired sampleDevice.max_temp = 154
    ∧ color_temperature_kelvin_to_mired sampleDevice.min_temp = 370
    ∧ ¬((mkFluxLight sampleDevice [] 50 "gradual").attr_max_mireds
          = color_temperature_kelvin_to_mired sampleDevice.min_temp + 1
        ∧ (mkFluxLight sampleDevice [] 50 "gradual").attr_min_mireds
          = color_temperature_kelvin_to_mired sampleDevice.max_temp) := by
  decide

/-- C6 (amended): the mired range is obtained by converting the device's
reported kelvin range (min mired from max kelvin, max mired from min
kelvin), with the +1 rounding offset applied to the minimum (coolest)
mired bound, i.e. the bound derived from the maximum kelvin value. -/
theorem mired_bounds_amended (device : Device)
    (colors : List (Nat × Nat × Nat)) (sp : Nat) (tr : String) :
    (mkFluxLight device colors sp tr).attr_min_mireds
      = color_temperature_kelvin_to_mired device.max_temp + 1
    ∧ (mkFluxLight device colors sp tr).attr_max_mireds
      = color_temperature_kelvin_to_mired device.min_temp :=
  ⟨rfl, rfl⟩

/-- C9: when the brightness attribute is omitted, each dispatch branch
that needs a brightness value — color temperature in non-RGBWW modes,
plain RGB, and every brightness-only branch — falls back to the device's
currently reported brightness, so a color change without an explicit
brightness preserves the reported brightness level. -/
theorem implicit_brightness (l : FluxLight) (kwargs : TurnOnArgs)
    (rand : Nat × Nat × Nat) (hb : kwargs.brightness = none) :
    (∀ m, kwargs.color_temp = some m → l.color_mode ≠ HassColorMode.rgbww →
      (asyncTurnOn l kwargs rand).dispatched
        = [Command.setWhiteTemp (color_temperature_mired_to_kelvin m)
            l.device.brightness])
    ∧ (kwargs.color_temp = none → ∀ c, kwargs.rgb_color = some c →
      (asyncTurnOn l kwargs rand).dispatched
        = [Command.setLevels (some c.1) (some c.2.1) (some c.2.2) none none
            (some l.device.brightness)])
    ∧ (kwargs.color_temp = none → kwargs.rgb_color = none →
        kwargs.rgbw_color = none → kwargs.rgbww_color = none →
        kwargs.effect = none → l.is_on = true →
      (asyncTurnOn l kwargs rand).dispatched =
        match l.color_mode with
        | HassColorMode.colorTemp =>
          [Command.setWhiteTemp l.device.color_temp l.device.brightness]
        | HassColorMode.rgb =>
          [Command.setLevels (some l.rgb_color.1) (some l.rgb_color.2.1)
            (some l.rgb_color.2.2) none none (some l.device.brightness)]
        | HassColorMode.rgbw =>
          [Command.setLevels
            (some (rgbw_brightness l.rgbw_color l.device.brightness).1)
            (some (rgbw_brightness l.rgbw_color l.device.brightness).2.1)
            (some (rgbw_brightness l.rgbw_color l.device.brightness).2.2.1)
            (some (rgbw_brightness l.rgbw_color l.device.brightness).2.2.2)
            none none]
        | HassColorMode.rgbww =>
          [Command.setLevels
            (some (rgbww_brightness l.rgbwc_color l.device.brightness).1)
            (some (rgbww_brightness l.rgbwc_color l.device.brightness).2.1)
            (some (rgbww_brightness l.rgbwc_color l.device.brightness).2.2.1)
            (some (rgbww_brightness l.rgbwc_color l.device.brightness).2.2.2.1)
            (some (rgbww_brightness l.rgbwc_color l.device.brightness).2.2.2.2)
            none]
        | HassColorMode.brightness =>
          [Command.setLevels none none none (some l.device.brightness) none none]
        | HassColorMode.onoff => []) := by
  refine ⟨?_, ?_, ?_⟩
  · intro m hm hmode
    have hne : kwargs.isEmpty = false := by simp [TurnOnArgs.isEmpty, hm]
    rw [asyncTurnOn_not_empty l kwargs rand hne]
    have hd : dispatch l kwargs rand
        = Sum.inl [Command.setWhiteTemp (color_temperature_mired_to_kelvin m)
            l.device.brightness] := by
      simp [dispatch, hb, hm, hmode, FluxLight.brightness]
    rw [hd]
  · intro hct c hc
    have hne : kwargs.isEmpty = false := by simp [TurnOnArgs.isEmpty, hc]
    rw [asyncTurnOn_not_empty l kwargs rand hne]
    have hd : dispatch l kwargs rand
        = Sum.inl [Command.setLevels (some c.1) (some c.2.1) (some c.2.2)
            none none (some l.device.brightness)] := by
      simp [dispatch, hb, hct, hc, FluxLight.brightness]
    rw [hd]
  · intro hct hrgb hrgbw hrgbww heff hon
    have hrun : asyncTurnOn l kwargs rand
        = match dispatch l kwargs rand with
          | Sum.inl cmds => ⟨false, cmds, none⟩
          | Sum.inr msg => ⟨false, [], some msg⟩ := by
      unfold asyncTurnOn
      cases dispatch l kwargs rand <;> simp [hon]
    rw [hrun]
    cases hm : l.color_mode <;>
      simp [dispatch, hb, hct, hrgb, hrgbw, hrgbww, heff, hm,
        FluxLight.brightness]

/-- C9 witness: an rgb-only intent on a light whose device reports
brightness 100 dispatches a levels command carrying brightness 100. -/
theorem implicit_brightness_witness :
    (({ rgb_color := some (10, 20, 30) } : TurnOnArgs).brightness = none)
    ∧ (asyncTurnOn sampleLight { rgb_color := some (10, 20, 30) }
        (0, 0, 0)).dispatched
      = [Command.setLevels (some 10) (some 20) (some 30) none none
          (some sampleLight.device.brightness)] :=
  ⟨rfl, (implicit_brightness sampleLight { rgb_color := some (10, 20, 30) }
    (0, 0, 0) rfl).2.1 rfl (10, 20, 30) rfl⟩

/-- Hue and saturation are invariant under a positive uniform scaling of
the RGB channels: the scaling cancels in every ratio `rgbToHS` forms. -/
theorem rgbToHS_smul (r g b c : ℚ) (hc : 0 < c) :
    rgbToHS (c * r) (c * g) (c * b) = rgbToHS r g b := by
  have hc0 : c ≠ 0 := ne_of_gt hc
  have hcle : 0 ≤ c := le_of_lt hc
  have hmax : max (c * r) (max (c * g) (c * b)) = c * max r (max g b) := by
    rw [mul_max_of_nonneg _ _ hcle, mul_max_of_nonneg _ _ hcle]
  have hmin : min (c * r) (min (c * g) (c * b)) = c * min r (min g b) := by
    rw [mul_min_of_nonneg _ _ hcle, mul_min_of_nonneg _ _ hcle]
  simp only [rgbToHS, hmax, hmin]
  by_cases heq : max r (max g b) = min r (min g b)
  · rw [if_pos heq, if_pos (by rw [heq])]
  · have hneq : ¬(c * max r (max g b) = c * min r (min g b)) :=
      fun h => heq ((mul_right_inj' hc0).mp h)
    rw [if_neg hneq, if_neg heq]
    have hs : (c * max r (max g b) - c * min r (min g b)) / (c * max r (max g b))
        = (max r (max g b) - min r (min g b)) / max r (max g b) := by
      rw [← mul_sub, mul_div_mul_left _ _ hc0]
    have hfrac : ∀ x y : ℚ, (c * x - c * y) / (c * max r (max g b) - c * min r (min g b))
        = (x - y) / (max r (max g b) - min r (min g b)) := by
      intro x y
      rw [← mul_sub, ← mul_sub, mul_div_mul_left _ _ hc0]
    have hh0 : (if c * r = c * max r (max g b) then
          (c * g - c * b) / (c * max r (max g b) - c * min r (min g b))
        else if c * g = c * max r (max g b) then
          2 + (c * b - c * r) / (c * max r (max g b) - c * min r (min g b))
        else
          4 + (c * r - c * g) / (c * max r (max g b) - c * min r (min g b)))
        = (if r = max r (max g b) then
          (g - b) / (max r (max g b) - min r (min g b))
        else if g = max r (max g b) then
          2 + (b - r) / (max r (max g b) - min r (min g b))
        else
          4 + (r - g) / (max r (max g b) - min r (min g b))) := by
      by_cases hr : r = max r (max g b)
      · rw [if_pos (congrArg (fun x => c * x) hr), if_pos hr, hfrac]
      · have hr' : ¬(c * r = c * max r (max g b)) :=
          fun h => hr ((mul_right_inj' hc0).mp h)
        rw [if_neg hr', if_neg hr]
        by_cases hg : g = max r (max g b)
        · rw [if_pos (congrArg (fun x => c * x) hg), if_pos hg, hfrac]
        · have hg' : ¬(c * g = c * max r (max g b)) :=
            fun h => hg ((mul_right_inj' hc0).mp h)
          rw [if_neg hg', if_neg hg, hfrac]
    rw [hs, hh0]

/-- C8: the `rgb_color` accessor reports the device's raw RGB triple
round-tripped through hue/saturation space, and the reported value is
brightness-independent: raw triples differing only by a positive uniform
scaling yield the same reported rgb color. -/
theorem rgb_color_hs_round_trip (l1 l2 : FluxLight) (c : ℚ) (hc : 0 < c)
    (hr : (l2.device.rgb.1 : ℚ) = c * l1.device.rgb.1)
    (hg : (l2.device.rgb.2.1 : ℚ) = c * l1.device.rgb.2.1)
    (hb : (l2.device.rgb.2.2 : ℚ) = c * l1.device.rgb.2.2) :
    l1.rgb_color = color_hs_to_RGB (color_RGB_to_hs l1.device.rgb)
    ∧ l2.rgb_color = l1.rgb_color := by
  refine ⟨rfl, ?_⟩
  unfold FluxLight.rgb_color
  congr 1
  unfold color_RGB_to_hs
  rw [hr, hg, hb, mul_div_assoc, mul_div_assoc, mul_div_assoc]
  exact rgbToHS_smul _ _ _ c hc

/-- A light whose device reports raw RGB (10, 20, 40) in RGB mode. -/
def sampleLightRgbA : FluxLight :=
  mkFluxLight { sampleDevice with rgb := (10, 20, 40), color_mode := FluxColorMode.rgb, color_modes := [FluxColorMode.rgb] } [] 50 "gradual"

/-- The same light with the raw RGB uniformly doubled to (20, 40, 80). -/
def sampleLightRgbB : FluxLight :=
  mkFluxLight { sampleDevice with rgb := (20, 40, 80), color_mode := FluxColorMode.rgb, color_modes := [FluxColorMode.rgb] } [] 50 "gradual"

/-- C8 witness: raw triples (10, 20, 40) and (20, 40, 80) differ by the
uniform scaling factor 2 and report the same rgb color. -/
theorem rgb_color_hs_round_trip_witness :
    (0 : ℚ) < 2
    ∧ (sampleLightRgbB.device.rgb.1 : ℚ) = 2 * sampleLightRgbA.device.rgb.1
    ∧ (sampleLightRgbB.device.rgb.2.1 : ℚ) = 2 * sampleLightRgbA.device.rgb.2.1
    ∧ (sampleLightRgbB.device.rgb.2.2 : ℚ) = 2 * sampleLightRgbA.device.rgb.2.2
    ∧ sampleLightRgbB.rgb_color = sampleLightRgbA.rgb_color := by
  have h1 : (sampleLightRgbB.device.rgb.1 : ℚ) = 2 * sampleLightRgbA.device.rgb.1 := by
    show ((20 : ℕ) : ℚ) = 2 * ((10 : ℕ) : ℚ)
    norm_num
  have h2 : (sampleLightRgbB.device.rgb.2.1 : ℚ) = 2 * sampleLightRgbA.device.rgb.2.1 := by
    show ((40 : ℕ) : ℚ) = 2 * ((20 : ℕ) : ℚ)
    norm_num
  have h3 : (sampleLightRgbB.device.rgb.2.2 : ℚ) = 2 * sampleLightRgbA.device.rgb.2.2 := by
    show ((80 : ℕ) : ℚ) = 2 * ((40 : ℕ) : ℚ)
    norm_num
  exact ⟨by norm_num, h1, h2, h3,
    (rgb_color_hs_round_trip sampleLightRgbA sampleLightRgbB 2 (by norm_num)
      h1 h2 h3).2⟩

/-- C10: the advertised effect list contains the CUSTOM effect name iff a
non-empty custom color list was supplied at construction and the
supported color modes intersect {RGB, RGBW, RGBWW}; the effect list is a
pure function of the construction inputs, which are never mutated. -/
theorem custom_effect_advertised_iff (device : Device)
    (colors : List (Nat × Nat × Nat)) (sp : Nat) (tr : String) :
    EFFECT_CUSTOM ∈ (mkFluxLight device colors sp tr).attr_effect_list.getD []
    ↔ colors ≠ []
      ∧ ∃ m ∈ device.color_modes, fluxColorModeToHass m ∈ EFFECT_SUPPORT_MODES := by
  have hnotin : EFFECT_CUSTOM ∉ FLUX_EFFECT_LIST := by decide
  cases hany : (device.color_modes.map fluxColorModeToHass).any
      (fun m => decide (m ∈ EFFECT_SUPPORT_MODES)) with
  | true =>
    have hex : ∃ m ∈ device.color_modes, fluxColorModeToHass m ∈ EFFECT_SUPPORT_MODES := by
      obtain ⟨x, hx, hpx⟩ := List.any_eq_true.mp hany
      obtain ⟨m, hm, rfl⟩ := List.mem_map.mp hx
      exact ⟨m, hm, of_decide_eq_true hpx⟩
    by_cases hcolors : colors = [] <;>
      simp [mkFluxLight, hany, hcolors, hnotin, hex]
  | false =>
    have hex : ¬ ∃ m ∈ device.color_modes, fluxColorModeToHass m ∈ EFFECT_SUPPORT_MODES := by
      rintro ⟨m, hm, hmem⟩
      have htrue : (device.color_modes.map fluxColorModeToHass).any
          (fun m => decide (m ∈ EFFECT_SUPPORT_MODES)) = true :=
        List.any_eq_true.mpr
          ⟨fluxColorModeToHass m, List.mem_map.mpr ⟨m, hm, rfl⟩, decide_eq_true hmem⟩
      rw [hany] at htrue
      cases htrue
    simp [mkFluxLight, hany, hex]

end FluxLed
